import Mathlib

/-!
Verification development for a Jenkins MCP (Model Context Protocol) adapter
(`jenkins_mcp.py`): a single-file Python server exposing a Jenkins REST API as
MCP resources and tools.

The embedding models:
* Python/JSON dynamic values (`JVal`) with Python truthiness, `dict.get`,
  `str()` / `repr()` rendering, substring tests and `json.dumps`;
* the `JenkinsManager` API-client class, with the HTTP transport abstracted
  as an environment function `HttpEnv : HttpRequest → HttpResult` (the httpx
  library is an external collaborator: its responses, including the message
  of the `HTTPStatusError` that `raise_for_status` would raise, are supplied
  by the environment);
* the MCP dispatcher entry points `call_tool` and `read_resource`, whose
  Python bodies are wrapped in `try/except`; raised exceptions are modelled
  as `Except.error` carrying the exception message (`str(e)`), and the
  dispatcher additionally records which API-client methods were invoked and
  which HTTP requests were issued.
-/

namespace JenkinsMCP

/-- Dynamic values: the result of `response.json()` / the contents of the MCP
`arguments` dict. Mirrors Python objects deserialised from JSON, with `null`
also standing for Python `None`. -/
inductive JVal where
  | null : JVal
  | bool (b : Bool) : JVal
  | num (n : Int) : JVal
  | str (s : String) : JVal
  | arr (xs : List JVal) : JVal
  | obj (kvs : List (String × JVal)) : JVal

mutual

/-- Equality of dynamic values, as Python `==` on JSON-shaped data. -/
def JVal.beq : JVal → JVal → Bool
  | .null, .null => true
  | .bool a, .bool b => a == b
  | .num a, .num b => a == b
  | .str a, .str b => a == b
  | .arr a, .arr b => JVal.beqList a b
  | .obj a, .obj b => JVal.beqObj a b
  | _, _ => false

def JVal.beqList : List JVal → List JVal → Bool
  | [], [] => true
  | x :: xs, y :: ys => JVal.beq x y && JVal.beqList xs ys
  | _, _ => false

def JVal.beqObj : List (String × JVal) → List (String × JVal) → Bool
  | [], [] => true
  | (k, v) :: xs, (l, w) :: ys => k == l && JVal.beq v w && JVal.beqObj xs ys
  | _, _ => false

end

instance : BEq JVal := ⟨JVal.beq⟩

/-- Python truthiness (`bool(x)`) of a dynamic value: `None`, `False`, `0`,
`""`, `[]` and `{}` are falsy, everything else is truthy. -/
def pyTruthy : JVal → Bool
  | .null => false
  | .bool b => b
  | .num n => !(n == 0)
  | .str s => !(s == "")
  | .arr xs => !xs.isEmpty
  | .obj kvs => !kvs.isEmpty

/-- Association-list lookup: `k in d` position of Python `d[k]` access;
`none` when the key is absent. -/
def pyGet (d : List (String × JVal)) (k : String) : Option JVal :=
  (d.find? (fun kv => kv.1 == k)).map (fun kv => kv.2)

/-- Python `d.get(k, default)`. -/
def pyGetD (d : List (String × JVal)) (k : String) (dflt : JVal) : JVal :=
  (pyGet d k).getD dflt

/-- Python `d.get(k)` (default `None`). -/
def pyGetN (d : List (String × JVal)) (k : String) : JVal :=
  pyGetD d k .null

/-- Python `v.get(k, default)` on a value expected to be a dict. A non-dict
receiver would raise `AttributeError` in Python; the model returns the
default (this is only reachable on malformed upstream data). -/
def jGetD (v : JVal) (k : String) (dflt : JVal) : JVal :=
  match v with
  | .obj kvs => pyGetD kvs k dflt
  | _ => dflt

/-- Python `v.get(k)` on a value expected to be a dict (default `None`). -/
def jGetN (v : JVal) (k : String) : JVal :=
  jGetD v k .null

/-- Coercion of a dynamic value to `String`. Used where the Python code's
type annotations promise a `str`; a non-string value would be a type error
downstream in Python, the model coerces it to `""`. -/
def jvalAsStr : JVal → String
  | .str s => s
  | _ => ""

/-- Coercion of a dynamic value to `Int`; a non-integer value would raise a
`TypeError` downstream in Python, the model coerces it to `0`. -/
def jvalAsInt : JVal → Int
  | .num n => n
  | _ => 0

/-- Coercion of a dynamic value to `Bool` via Python truthiness (the code
only consumes the coerced field through `if`-tests). -/
def jvalAsBool (v : JVal) : Bool := pyTruthy v

/-- Coercion of a dynamic value to a dict's entry list; a non-dict would
raise in Python, the model coerces it to `{}`. -/
def jvalAsObj : JVal → List (String × JVal)
  | .obj kvs => kvs
  | _ => []

/-- Coercion of a dynamic value to a list; a non-list would raise in
Python, the model coerces it to `[]`. -/
def jvalAsArr : JVal → List JVal
  | .arr xs => xs
  | _ => []

mutual

/-- Python `repr()` of a JSON-shaped value (as used by f-string
interpolation of a dict). String escaping inside `repr` is not modelled:
the strings interpolated by the source are plain. -/
def pyRepr : JVal → String
  | .null => "None"
  | .bool b => if b then "True" else "False"
  | .num n => toString n
  | .str s => "\x27" ++ s ++ "\x27"
  | .arr xs => "[" ++ pyReprList xs ++ "]"
  | .obj kvs => "\x7b" ++ pyReprObj kvs ++ "\x7d"

def pyReprList : List JVal → String
  | [] => ""
  | [x] => pyRepr x
  | x :: xs => pyRepr x ++ ", " ++ pyReprList xs

def pyReprObj : List (String × JVal) → String
  | [] => ""
  | [(k, v)] => "\x27" ++ k ++ "\x27: " ++ pyRepr v
  | (k, v) :: kvs => "\x27" ++ k ++ "\x27: " ++ pyRepr v ++ ", " ++ pyReprObj kvs

end

/-- Python `str()` of a dynamic value, as performed by f-string
interpolation. -/
def pyStr : JVal → String
  | .null => "None"
  | .bool b => if b then "True" else "False"
  | .num n => toString n
  | .str s => s
  | .arr xs => pyRepr (.arr xs)
  | .obj kvs => pyRepr (.obj kvs)

/-- Python `needle in hay` on strings: contiguous-substring test. -/
def pySubstr (needle hay : String) : Bool :=
  decide (needle.data <:+: hay.data)

/-- Python `s.lower()`, character by character. (Like `Char.toLower`, this
only folds the ASCII range; the source only filters over ASCII names.) -/
def pyLower (s : String) : String :=
  String.mk (s.data.map Char.toLower)

/-- Python `'sep'.join(xs)`. -/
def pyJoin (sep : String) : List String → String
  | [] => ""
  | [x] => x
  | x :: xs => x ++ sep ++ pyJoin sep xs

/-- Python `s.split('\n')`: split on every separator occurrence, keeping
empty pieces. -/
def pySplitNL (s : String) : List String :=
  (s.data.splitOn '\n').map String.mk

/-- Python list slicing `xs[-n:]` for an arbitrary integer `n`: for `n > 0`
the last `n` elements (all of them when `n ≥ len`); `xs[-0:]` is `xs[0:]`,
the whole list; for negative `n` the slice start is the positive index
`-n`. -/
def pySliceNeg (n : Int) (xs : List α) : List α :=
  if n ≤ 0 then xs.drop (-n).toNat
  else xs.drop (xs.length - n.toNat)

/-- One lowercase hexadecimal digit. -/
def hexDigit (n : Nat) : Char :=
  if n < 10 then Char.ofNat (48 + n) else Char.ofNat (87 + n)

/-- Four lowercase hexadecimal digits, as in Python `\uXXXX` escapes. -/
def hex4 (n : Nat) : String :=
  String.mk [hexDigit (n / 4096 % 16), hexDigit (n / 256 % 16),
             hexDigit (n / 16 % 16), hexDigit (n % 16)]

/-- `json.dumps` escaping of one character inside a string literal.
`ensureAscii` mirrors Python's `ensure_ascii` flag: when set, characters
outside `0x20`–`0x7e` are `\uXXXX`-escaped (non-BMP ones as surrogate
pairs). -/
def jsonEscChar (ensureAscii : Bool) (c : Char) : String :=
  if c = '"' then "\\\""
  else if c = '\\' then "\\\\"
  else if c = '\n' then "\\n"
  else if c = '\t' then "\\t"
  else if c = '\r' then "\\r"
  else if c.toNat = 8 then "\\b"
  else if c.toNat = 12 then "\\f"
  else if c.toNat < 32 then "\\u" ++ hex4 c.toNat
  else if ensureAscii && c.toNat > 126 then
    if c.toNat < 65536 then "\\u" ++ hex4 c.toNat
    else
      let n := c.toNat - 65536
      "\\u" ++ hex4 (55296 + n / 1024) ++ "\\u" ++ hex4 (56320 + n % 1024)
  else String.singleton c

/-- `json.dumps` rendering of a string literal. -/
def jsonQuote (ensureAscii : Bool) (s : String) : String :=
  "\"" ++ String.join (s.data.map (jsonEscChar ensureAscii)) ++ "\""

/-- `n` spaces, for `json.dumps` indentation. -/
def jsonSpaces (n : Nat) : String := String.mk (List.replicate n ' ')

mutual

/-- Python `json.dumps(v, indent=2)` at indentation level `ind`, with the
`ensure_ascii` flag. -/
def jsonDumps (ea : Bool) (ind : Nat) : JVal → String
  | .null => "null"
  | .bool b => if b then "true" else "false"
  | .num n => toString n
  | .str s => jsonQuote ea s
  | .arr [] => "[]"
  | .arr xs => "[\n" ++ jsonDumpsArr ea (ind + 2) xs ++ "\n" ++ jsonSpaces ind ++ "]"
  | .obj [] => "\x7b\x7d"
  | .obj kvs => "\x7b\n" ++ jsonDumpsObj ea (ind + 2) kvs ++ "\n" ++ jsonSpaces ind ++ "\x7d"

def jsonDumpsArr (ea : Bool) (ind : Nat) : List JVal → String
  | [] => ""
  | [x] => jsonSpaces ind ++ jsonDumps ea ind x
  | x :: xs => jsonSpaces ind ++ jsonDumps ea ind x ++ ",\n" ++ jsonDumpsArr ea ind xs

def jsonDumpsObj (ea : Bool) (ind : Nat) : List (String × JVal) → String
  | [] => ""
  | [(k, v)] => jsonSpaces ind ++ jsonQuote ea k ++ ": " ++ jsonDumps ea ind v
  | (k, v) :: kvs =>
      jsonSpaces ind ++ jsonQuote ea k ++ ": " ++ jsonDumps ea ind v ++ ",\n" ++
        jsonDumpsObj ea ind kvs

end

/-- The `JenkinsJob` dataclass. `name`, `url`, `color`, `buildable` are
typed per the dataclass annotations (the tree-filtered Jenkins response
supplies them with those types); `last_build` is `job_data.get("lastBuild")`,
kept dynamic: `JVal.null` when absent. -/
structure JenkinsJob where
  name : String
  url : String
  color : String
  buildable : Bool
  last_build : JVal

/-- The `JenkinsBuild` dataclass. `result` is kept dynamic: the upstream
value can be a string or `null` (in-progress build). -/
structure JenkinsBuild where
  number : Int
  url : String
  result : JVal
  building : Bool
  duration : Int
  timestamp : Int

/-- One HTTP request issued through the httpx client. The constant
Basic-Authentication headers and the timeout configuration are fixed at
manager construction and carried by every request, so they are not
repeated here. `formData` is the `data=` argument of `client.post`
(form-encoded by httpx); `none` for requests without a body. -/
structure HttpRequest where
  method : String
  url : String
  formData : Option JVal

/-- What the httpx transport does with one request: raise a connect-phase
timeout (`httpx.ConnectTimeout`, carrying its message), raise some other
transport exception (carrying its message), or deliver a response with a
status code, the message of the `httpx.HTTPStatusError` that
`raise_for_status` would raise for it, the parsed JSON body
(`response.json()`) and the raw text (`response.text`). -/
inductive HttpResult where
  | connectTimeout (msg : String)
  | exn (msg : String)
  | resp (status : Nat) (statusErrMsg : String) (body : JVal) (text : String)

/-- The HTTP transport abstracted as an environment. -/
def HttpEnv := HttpRequest → HttpResult

/-- The `JenkinsManager` class state: configuration captured by
`__init__`. The Basic-Authentication header derived from
`username:api_token` is constant per manager and not re-modelled. -/
structure JenkinsManager where
  jenkins_url : String
  username : String
  api_token : String

/-- `JenkinsManager.__init__`: strips trailing slashes from the base URL. -/
def mkJenkinsManager (jenkins_url username api_token : String) : JenkinsManager :=
  { jenkins_url := jenkins_url.dropRightWhile (fun c => c = '/')
    username := username
    api_token := api_token }

/-- `raise_for_status`: succeed on a 2xx status, otherwise raise the
`HTTPStatusError` with the library-supplied message. -/
def raiseForStatus (status : Nat) (statusErrMsg : String) : Except String Unit :=
  if 200 ≤ status ∧ status < 300 then .ok () else .error statusErrMsg

/-- `JenkinsManager.test_connection`: GET the root API endpoint. A
connect-phase timeout and the 401/403/other non-2xx statuses are caught
and re-raised with the messages below; other transport exceptions
propagate unchanged. Returns the parsed body on 2xx. -/
def JenkinsManager.test_connection (m : JenkinsManager) (env : HttpEnv) :
    Except String JVal × List HttpRequest :=
  let req : HttpRequest := ⟨"GET", m.jenkins_url ++ "/api/json", none⟩
  match env req with
  | .connectTimeout _ =>
      (.error "Timeout de conexión - ¿Estás conectado a la VPN?", [req])
  | .exn msg => (.error msg, [req])
  | .resp status _ body _ =>
      if 200 ≤ status ∧ status < 300 then (.ok body, [req])
      else if status = 401 then
        (.error "Error de autenticación - Verifica usuario y token", [req])
      else if status = 403 then
        (.error "Sin permisos - Verifica los permisos del usuario", [req])
      else (.error ("Error HTTP " ++ toString status), [req])

/-- Parse one `job_data` dict into a `JenkinsJob`, with the source's
`.get` defaults. -/
def parseJob (job_data : List (String × JVal)) : JenkinsJob :=
  { name := jvalAsStr (pyGetD job_data "name" (.str ""))
    url := jvalAsStr (pyGetD job_data "url" (.str ""))
    color := jvalAsStr (pyGetD job_data "color" (.str ""))
    buildable := jvalAsBool (pyGetD job_data "buildable" (.bool false))
    last_build := pyGetN job_data "lastBuild" }

/-- `JenkinsManager.get_jobs`: GET the root API endpoint with a tree
field-selection query and parse `data.get("jobs", [])`. Exceptions
(timeouts, other transport errors, `raise_for_status`) propagate. -/
def JenkinsManager.get_jobs (m : JenkinsManager) (env : HttpEnv) :
    Except String (List JenkinsJob) × List HttpRequest :=
  let req : HttpRequest :=
    ⟨"GET",
     m.jenkins_url ++
       "/api/json?tree=jobs[name,url,color,buildable,lastBuild[number,url,result,building]]",
     none⟩
  match env req with
  | .connectTimeout msg => (.error msg, [req])
  | .exn msg => (.error msg, [req])
  | .resp status statusErrMsg body _ =>
      match raiseForStatus status statusErrMsg with
      | .error e => (.error e, [req])
      | .ok _ =>
          let data := body
          (.ok ((jvalAsArr (jGetD data "jobs" (.arr []))).map
                  (fun job_data => parseJob (jvalAsObj job_data))), [req])

/-- `JenkinsManager.get_job_info`: GET the job-scoped endpoint, full
payload. The `job_name` argument is interpolated into the URL by an
f-string, hence `pyStr`. -/
def JenkinsManager.get_job_info (m : JenkinsManager) (env : HttpEnv)
    (job_name : JVal) : Except String JVal × List HttpRequest :=
  let req : HttpRequest :=
    ⟨"GET", m.jenkins_url ++ "/job/" ++ pyStr job_name ++ "/api/json", none⟩
  match env req with
  | .connectTimeout msg => (.error msg, [req])
  | .exn msg => (.error msg, [req])
  | .resp status statusErrMsg body _ =>
      match raiseForStatus status statusErrMsg with
      | .error e => (.error e, [req])
      | .ok _ => (.ok body, [req])

/-- Parse one `build_data` dict into a `JenkinsBuild`, with the source's
`.get` defaults. -/
def parseBuild (build_data : List (String × JVal)) : JenkinsBuild :=
  { number := jvalAsInt (pyGetD build_data "number" (.num 0))
    url := jvalAsStr (pyGetD build_data "url" (.str ""))
    result := pyGetD build_data "result" (.str "UNKNOWN")
    building := jvalAsBool (pyGetD build_data "building" (.bool false))
    duration := jvalAsInt (pyGetD build_data "duration" (.num 0))
    timestamp := jvalAsInt (pyGetD build_data "timestamp" (.num 0)) }

/-- `JenkinsManager.get_job_builds`: GET the job-scoped endpoint with a
bounded-range tree query (`builds[...]{0,limit}`) and parse
`data.get("builds", [])`. `limit` is interpolated into the URL by an
f-string, hence `pyStr`. -/
def JenkinsManager.get_job_builds (m : JenkinsManager) (env : HttpEnv)
    (job_name : JVal) (limit : JVal) :
    Except String (List JenkinsBuild) × List HttpRequest :=
  let req : HttpRequest :=
    ⟨"GET",
     m.jenkins_url ++ "/job/" ++ pyStr job_name ++
       "/api/json?tree=builds[number,url,result,building,duration,timestamp]\x7b0," ++
       pyStr limit ++ "\x7d",
     none⟩
  match env req with
  | .connectTimeout msg => (.error msg, [req])
  | .exn msg => (.error msg, [req])
  | .resp status statusErrMsg body _ =>
      match raiseForStatus status statusErrMsg with
      | .error e => (.error e, [req])
      | .ok _ =>
          let data := body
          (.ok ((jvalAsArr (jGetD data "builds" (.arr []))).map
                  (fun build_data => parseBuild (jvalAsObj build_data))), [req])

/-- `JenkinsManager.get_build_info`: GET the build-scoped endpoint, full
payload. -/
def JenkinsManager.get_build_info (m : JenkinsManager) (env : HttpEnv)
    (job_name : JVal) (build_number : JVal) :
    Except String JVal × List HttpRequest :=
  let req : HttpRequest :=
    ⟨"GET",
     m.jenkins_url ++ "/job/" ++ pyStr job_name ++ "/" ++ pyStr build_number ++
       "/api/json",
     none⟩
  match env req with
  | .connectTimeout msg => (.error msg, [req])
  | .exn msg => (.error msg, [req])
  | .resp status statusErrMsg body _ =>
      match raiseForStatus status statusErrMsg with
      | .error e => (.error e, [req])
      | .ok _ => (.ok body, [req])

/-- The client-side tail truncation of `get_build_console` (source lines
160–163): split the fetched console text on newline and join the slice
`lines_list[-lines:]` with newline. -/
def consoleTail (console_output : String) (lines : Int) : String :=
  let lines_list := pySplitNL console_output
  pyJoin "\n" (pySliceNeg lines lines_list)

/-- `JenkinsManager.get_build_console`: GET the plain-text console
endpoint, then truncate client-side to the last `lines` lines. `lines` is
used by list slicing, so it is coerced to an integer (a non-integer would
raise a `TypeError` in Python). -/
def JenkinsManager.get_build_console (m : JenkinsManager) (env : HttpEnv)
    (job_name : JVal) (build_number : JVal) (lines : JVal) :
    Except String String × List HttpRequest :=
  let req : HttpRequest :=
    ⟨"GET",
     m.jenkins_url ++ "/job/" ++ pyStr job_name ++ "/" ++ pyStr build_number ++
       "/consoleText",
     none⟩
  match env req with
  | .connectTimeout msg => (.error msg, [req])
  | .exn msg => (.error msg, [req])
  | .resp status statusErrMsg _ text =>
      match raiseForStatus status statusErrMsg with
      | .error e => (.error e, [req])
      | .ok _ => (.ok (consoleTail text (jvalAsInt lines)), [req])

/-- `JenkinsManager.trigger_build`: POST to `buildWithParameters` with the
form-encoded parameters when `parameters` is truthy (a non-empty dict),
else POST to the simple `build` endpoint; the result is
`status_code in [200, 201]`. The Python default for `parameters` is
`None`, modelled as `JVal.null`. -/
def JenkinsManager.trigger_build (m : JenkinsManager) (env : HttpEnv)
    (job_name : JVal) (parameters : JVal) :
    Except String Bool × List HttpRequest :=
  let req : HttpRequest :=
    if pyTruthy parameters then
      ⟨"POST", m.jenkins_url ++ "/job/" ++ pyStr job_name ++ "/buildWithParameters",
       some parameters⟩
    else
      ⟨"POST", m.jenkins_url ++ "/job/" ++ pyStr job_name ++ "/build", none⟩
  match env req with
  | .connectTimeout msg => (.error msg, [req])
  | .exn msg => (.error msg, [req])
  | .resp status _ _ _ => (.ok (status == 200 || status == 201), [req])

/-- `JenkinsManager.get_queue_info`: GET the queue endpoint and return
`data.get("items", [])`. -/
def JenkinsManager.get_queue_info (m : JenkinsManager) (env : HttpEnv) :
    Except String (List JVal) × List HttpRequest :=
  let req : HttpRequest := ⟨"GET", m.jenkins_url ++ "/queue/api/json", none⟩
  match env req with
  | .connectTimeout msg => (.error msg, [req])
  | .exn msg => (.error msg, [req])
  | .resp status statusErrMsg body _ =>
      match raiseForStatus status statusErrMsg with
      | .error e => (.error e, [req])
      | .ok _ => (.ok (jvalAsArr (jGetD body "items" (.arr []))), [req])

/-! ## Catalog Provider: the static resource and tool declarations -/

/-- One entry of the static resource catalog (`list_resources`). -/
structure ResourceDecl where
  uri : String
  name : String
  description : String
  mimeType : String
deriving DecidableEq

/-- One property of a tool's JSON-Schema input descriptor. -/
structure PropDecl where
  name : String
  type : String
  description : String
deriving DecidableEq

/-- One entry of the static tool catalog (`list_tools`): identifier,
description, input-schema properties and required-field set. -/
structure ToolDecl where
  name : String
  description : String
  properties : List PropDecl
  required : List String
deriving DecidableEq

/-- The `list_resources` handler: a static, ordered catalog. -/
def list_resources : List ResourceDecl :=
  [⟨"jenkins://jobs", "Jobs de Jenkins", "Lista de todos los jobs",
    "application/json"⟩,
   ⟨"jenkins://queue", "Cola de Builds", "Builds en cola de ejecución",
    "application/json"⟩,
   ⟨"jenkins://failed-jobs", "Jobs Fallidos", "Jobs con último build fallido",
    "application/json"⟩]

/-- The `list_tools` handler: a static, ordered catalog. -/
def list_tools : List ToolDecl :=
  [⟨"get_jobs", "Obtener lista de todos los jobs",
    [⟨"filter", "string", "Filtrar jobs por nombre (opcional)"⟩], []⟩,
   ⟨"get_job_info", "Obtener información detallada de un job",
    [⟨"job_name", "string", "Nombre del job"⟩], ["job_name"]⟩,
   ⟨"get_job_builds", "Obtener builds recientes de un job",
    [⟨"job_name", "string", "Nombre del job"⟩,
     ⟨"limit", "integer", "Número de builds a mostrar (default: 10)"⟩],
    ["job_name"]⟩,
   ⟨"get_build_console", "Obtener logs de consola de un build",
    [⟨"job_name", "string", "Nombre del job"⟩,
     ⟨"build_number", "integer", "Número del build"⟩,
     ⟨"lines", "integer", "Número de líneas a mostrar (default: 50)"⟩],
    ["job_name", "build_number"]⟩,
   ⟨"trigger_build", "Ejecutar un build de un job",
    [⟨"job_name", "string", "Nombre del job a ejecutar"⟩,
     ⟨"parameters", "object", "Parámetros del build (opcional)"⟩],
    ["job_name"]⟩,
   ⟨"get_failed_jobs", "Obtener jobs con builds fallidos", [], []⟩,
   ⟨"test_connection", "Probar conexión con Jenkins", [], []⟩]

/-! ## Dispatcher / Formatter -/

/-- One `types.TextContent` payload (the `type="text"` tag is constant). -/
structure TextContent where
  text : String
deriving DecidableEq

/-- A record of one API-client method invocation performed by the
dispatcher, with the argument values it was passed. -/
inductive ApiCall where
  | testConnection
  | getJobs
  | getJobInfo (job_name : JVal)
  | getJobBuilds (job_name : JVal) (limit : JVal)
  | getBuildConsole (job_name : JVal) (build_number : JVal) (lines : JVal)
  | triggerBuild (job_name : JVal) (parameters : JVal)
  | getQueueInfo

/-- Process context: the environment configuration (`JENKINS_URL`,
`JENKINS_USERNAME`, `JENKINS_API_TOKEN`) from which the module-level
`jenkins_manager` is constructed, and the timestamp formatter
(`datetime.fromtimestamp(ts / 1000).strftime('%Y-%m-%d %H:%M')`, an
external library call modelled as a function of the raw millisecond
timestamp). -/
structure ServerCtx where
  jenkins_url : String
  username : String
  api_token : String
  formatTimestamp : Int → String

/-- The module-level `jenkins_manager` instance. -/
def ServerCtx.manager (ctx : ServerCtx) : JenkinsManager :=
  mkJenkinsManager ctx.jenkins_url ctx.username ctx.api_token

/-- The status-to-emoji map of the `get_jobs` renderer, with its `"❓"`
default. -/
def jobStatusEmoji (color : String) : String :=
  (([("blue", "✅"), ("blue_anime", "🔄"), ("red", "❌"), ("red_anime", "🔄❌"),
     ("yellow", "⚠️"), ("grey", "⚪"), ("disabled", "⏸️")] :
      List (String × String)).find? (fun kv => kv.1 == color)).elim "❓"
    (fun kv => kv.2)

/-- The result-to-emoji map of the `get_job_builds` renderer (whose keys
include `None`), with its `"❓"` default. -/
def buildStatusEmoji (result : JVal) : String :=
  (([(JVal.str "SUCCESS", "✅"), (JVal.str "FAILURE", "❌"),
     (JVal.str "UNSTABLE", "⚠️"), (JVal.str "ABORTED", "⏹️"),
     (JVal.null, "🔄")] :
      List (JVal × String)).find? (fun kv => kv.1 == result)).elim "❓"
    (fun kv => kv.2)

/-- The filtering step of the `get_jobs` tool (source lines 394–398):
lower-case the `filter` argument (default `""`); when it is truthy, keep
the jobs whose lower-cased name contains it as a substring. -/
def getJobsSelection (arguments : List (String × JVal)) (jobs : List JenkinsJob) :
    List JenkinsJob :=
  let filter_name := pyLower (jvalAsStr (pyGetD arguments "filter" (.str "")))
  if !(filter_name == "") then
    jobs.filter (fun job => pySubstr filter_name (pyLower job.name))
  else jobs

/-- One rendered entry of the `get_jobs` listing. -/
def renderJobEntry (job : JenkinsJob) : String :=
  jobStatusEmoji job.color ++ " **" ++ job.name ++ "**\n" ++
    "   📊 Estado: " ++ job.color ++ "\n" ++
    "   🔧 Ejecutable: " ++ (if job.buildable then "Sí" else "No") ++ "\n" ++
    (if pyTruthy job.last_build then
      "   🔢 Último build: #" ++ pyStr (jGetD job.last_build "number" (.str "N/A")) ++
        "\n" ++
        "   📊 Resultado: " ++ pyStr (jGetD job.last_build "result" (.str "N/A")) ++ "\n"
    else "") ++
    "\n"

/-- One rendered entry of the `get_job_builds` listing. -/
def renderBuildEntry (formatTimestamp : Int → String) (build : JenkinsBuild) :
    String :=
  buildStatusEmoji build.result ++ " **Build #" ++ toString build.number ++ "**\n" ++
    "   📊 Resultado: " ++
      (if pyTruthy build.result then pyStr build.result else "En progreso") ++ "\n" ++
    "   🔄 Ejecutándose: " ++ (if build.building then "Sí" else "No") ++ "\n" ++
    (if build.duration > 0 then
      "   ⏱️ Duración: " ++ toString (Int.fdiv build.duration 60000) ++ " min\n"
    else "") ++
    (if build.timestamp > 0 then
      "   📅 Fecha: " ++ formatTimestamp build.timestamp ++ "\n"
    else "") ++
    "\n"

/-- The failed-job condition as written in the `get_failed_jobs` tool
branch (source lines 550–552): `job.color in ["red", "red_anime"] or
(job.last_build and job.last_build.get("result") == "FAILURE")`. -/
def failedCondTool (job : JenkinsJob) : Bool :=
  (job.color == "red" || job.color == "red_anime") ||
    (pyTruthy job.last_build && (jGetN job.last_build "result" == JVal.str "FAILURE"))

/-- The jobs selected by the `get_failed_jobs` tool. -/
def failedJobsTool (jobs : List JenkinsJob) : List JenkinsJob :=
  jobs.filter failedCondTool

/-- One rendered entry of the `get_failed_jobs` listing (`.get` with no
default: absent keys render as `None`). -/
def renderFailedJobEntry (job : JenkinsJob) : String :=
  "❌ **" ++ job.name ++ "**\n" ++
    "   📊 Estado: " ++ job.color ++ "\n" ++
    (if pyTruthy job.last_build then
      "   🔢 Build: #" ++ pyStr (jGetN job.last_build "number") ++ "\n" ++
        "   📊 Resultado: " ++ pyStr (jGetN job.last_build "result") ++ "\n"
    else "") ++
    "\n"

/-- The outcome of the `try`-protected body of `call_tool`: the value it
returns or the exception message it raises, together with the API-client
methods invoked and the HTTP requests issued along the way. -/
structure BodyOut where
  result : Except String (List TextContent)
  apiCalls : List ApiCall
  httpRequests : List HttpRequest

/-- The `call_tool` handler's `try` body: dispatch on the tool name,
validate required arguments, invoke the API client and render the
result. -/
def callToolBody (ctx : ServerCtx) (env : HttpEnv) (name : String)
    (arguments : List (String × JVal)) : BodyOut :=
  if name = "test_connection" then
    let (res, reqs) := ctx.manager.test_connection env
    match res with
    | .error e => ⟨.error e, [.testConnection], reqs⟩
    | .ok connection_info =>
        ⟨.ok [⟨"✅ Conexión exitosa con Jenkins\n🏷️ Versión: " ++
                pyStr (jGetD connection_info "version" (.str "N/A")) ++
                "\n🔗 URL: " ++ ctx.jenkins_url⟩],
         [.testConnection], reqs⟩
  else if name = "get_jobs" then
    let (res, reqs) := ctx.manager.get_jobs env
    match res with
    | .error e => ⟨.error e, [.getJobs], reqs⟩
    | .ok jobs0 =>
        let jobs := getJobsSelection arguments jobs0
        if jobs.isEmpty then
          ⟨.ok [⟨"📋 No se encontraron jobs"⟩], [.getJobs], reqs⟩
        else
          ⟨.ok [⟨"📋 **Jobs de Jenkins:** (" ++ toString jobs.length ++
                  " total)\n\n" ++ String.join (jobs.map renderJobEntry)⟩],
           [.getJobs], reqs⟩
  else if name = "get_job_info" then
    let job_name := pyGetN arguments "job_name"
    if !pyTruthy job_name then
      ⟨.ok [⟨"❌ Error: Se requiere job_name"⟩], [], []⟩
    else
      let (res, reqs) := ctx.manager.get_job_info env job_name
      match res with
      | .error e => ⟨.error e, [.getJobInfo job_name], reqs⟩
      | .ok job_info =>
          let last_build := jGetN job_info "lastBuild"
          ⟨.ok [⟨"🔧 **Job: " ++ pyStr job_name ++ "**\n\n" ++
                  "📝 **Descripción:** " ++
                    pyStr (jGetD job_info "description" (.str "Sin descripción")) ++
                    "\n" ++
                  "📊 **Estado:** " ++ pyStr (jGetD job_info "color" (.str "N/A")) ++
                    "\n" ++
                  "🔧 **Ejecutable:** " ++
                    (if pyTruthy (jGetN job_info "buildable") then "Sí" else "No") ++
                    "\n" ++
                  "🔗 **URL:** " ++ pyStr (jGetD job_info "url" (.str "N/A")) ++
                    "\n\n" ++
                  (if pyTruthy last_build then
                    "🔢 **Último Build:** #" ++ pyStr (jGetN last_build "number") ++
                      "\n" ++
                      "📊 **Resultado:** " ++
                      pyStr (jGetD last_build "result" (.str "N/A")) ++ "\n"
                  else "") ++
                  "⏭️ **Próximo Build:** #" ++
                    pyStr (jGetD job_info "nextBuildNumber" (.str "N/A")) ++ "\n"⟩],
           [.getJobInfo job_name], reqs⟩
  else if name = "get_job_builds" then
    let job_name := pyGetN arguments "job_name"
    let limit := pyGetD arguments "limit" (.num 10)
    if !pyTruthy job_name then
      ⟨.ok [⟨"❌ Error: Se requiere job_name"⟩], [], []⟩
    else
      let (res, reqs) := ctx.manager.get_job_builds env job_name limit
      match res with
      | .error e => ⟨.error e, [.getJobBuilds job_name limit], reqs⟩
      | .ok builds =>
          if builds.isEmpty then
            ⟨.ok [⟨"📋 No hay builds para el job \x27" ++ pyStr job_name ++ "\x27"⟩],
             [.getJobBuilds job_name limit], reqs⟩
          else
            ⟨.ok [⟨"📋 **Builds del job \x27" ++ pyStr job_name ++ "\x27:** (" ++
                    toString builds.length ++ " builds)\n\n" ++
                    String.join (builds.map (renderBuildEntry ctx.formatTimestamp))⟩],
             [.getJobBuilds job_name limit], reqs⟩
  else if name = "get_build_console" then
    let job_name := pyGetN arguments "job_name"
    let build_number := pyGetN arguments "build_number"
    let lines := pyGetD arguments "lines" (.num 50)
    if !(pyTruthy job_name && pyTruthy build_number) then
      ⟨.ok [⟨"❌ Error: Se requieren job_name y build_number"⟩], [], []⟩
    else
      let (res, reqs) := ctx.manager.get_build_console env job_name build_number lines
      match res with
      | .error e => ⟨.error e, [.getBuildConsole job_name build_number lines], reqs⟩
      | .ok console_output =>
          ⟨.ok [⟨"📝 **Console logs - " ++ pyStr job_name ++ " #" ++
                  pyStr build_number ++ "** (últimas " ++ pyStr lines ++
                  " líneas)\n\n" ++ "```\n" ++ console_output ++ "\n```"⟩],
           [.getBuildConsole job_name build_number lines], reqs⟩
  else if name = "trigger_build" then
    let job_name := pyGetN arguments "job_name"
    let parameters := pyGetD arguments "parameters" (.obj [])
    if !pyTruthy job_name then
      ⟨.ok [⟨"❌ Error: Se requiere job_name"⟩], [], []⟩
    else
      let (res, reqs) := ctx.manager.trigger_build env job_name parameters
      match res with
      | .error e => ⟨.error e, [.triggerBuild job_name parameters], reqs⟩
      | .ok success =>
          if success then
            ⟨.ok [⟨"🚀 Build ejecutado exitosamente para \x27" ++ pyStr job_name ++
                    "\x27" ++
                    (if pyTruthy parameters then
                      " con parámetros: " ++ pyStr parameters
                    else "")⟩],
             [.triggerBuild job_name parameters], reqs⟩
          else
            ⟨.ok [⟨"❌ Error al ejecutar build para \x27" ++ pyStr job_name ++ "\x27"⟩],
             [.triggerBuild job_name parameters], reqs⟩
  else if name = "get_failed_jobs" then
    let (res, reqs) := ctx.manager.get_jobs env
    match res with
    | .error e => ⟨.error e, [.getJobs], reqs⟩
    | .ok jobs =>
        let failed_jobs := failedJobsTool jobs
        if failed_jobs.isEmpty then
          ⟨.ok [⟨"✅ No hay jobs fallidos actualmente"⟩], [.getJobs], reqs⟩
        else
          ⟨.ok [⟨"❌ **Jobs Fallidos:** (" ++ toString failed_jobs.length ++
                  " jobs)\n\n" ++ String.join (failed_jobs.map renderFailedJobEntry)⟩],
           [.getJobs], reqs⟩
  else
    ⟨.ok [⟨"❌ Herramienta desconocida: " ++ name⟩], [], []⟩

/-- The value returned by a dispatcher entry point, with the API-client
and HTTP activity it performed. -/
structure DispatchOut where
  content : List TextContent
  apiCalls : List ApiCall
  httpRequests : List HttpRequest

/-- The VPN hint appended by `call_tool`'s exception handler to
timeout-flavoured messages. -/
def vpnTip : String := "\n💡 Tip: ¿Estás conectado a la VPN?"

/-- The `call_tool` handler: run the body; any raised exception is caught
and converted to a text payload `"❌ Error: " + msg`, with the VPN hint
appended first when the message contains `"Timeout"`. -/
def call_tool (ctx : ServerCtx) (env : HttpEnv) (name : String)
    (arguments : List (String × JVal)) : DispatchOut :=
  let b := callToolBody ctx env name arguments
  match b.result with
  | .ok content => ⟨content, b.apiCalls, b.httpRequests⟩
  | .error e =>
      let error_msg := if pySubstr "Timeout" e then e ++ vpnTip else e
      ⟨[⟨"❌ Error: " ++ error_msg⟩], b.apiCalls, b.httpRequests⟩

/-- The failed-job condition as written in the `failed-jobs` branch of
`read_resource` (source lines 264–265) — textually the same rule as
`failedCondTool`, implemented separately in the source. -/
def failedCondResource (job : JenkinsJob) : Bool :=
  (job.color == "red" || job.color == "red_anime") ||
    (pyTruthy job.last_build && (jGetN job.last_build "result" == JVal.str "FAILURE"))

/-- The jobs selected by the `failed-jobs` resource read. -/
def failedJobsResource (jobs : List JenkinsJob) : List JenkinsJob :=
  jobs.filter failedCondResource

/-- The JSON projection of a job used by the `jenkins://jobs` resource. -/
def jobToJson (job : JenkinsJob) : JVal :=
  .obj [("name", .str job.name), ("url", .str job.url), ("color", .str job.color),
        ("buildable", .bool job.buildable), ("last_build", job.last_build)]

/-- The JSON projection of a job used by the `jenkins://failed-jobs`
resource. -/
def failedJobToJson (job : JenkinsJob) : JVal :=
  .obj [("name", .str job.name), ("color", .str job.color),
        ("last_build", job.last_build)]

/-- The `read_resource` handler's `try` body: dispatch on the URI; an
unknown URI raises `ValueError(f"Recurso no encontrado: {uri}")`. The
success payloads are `json.dumps(..., indent=2, ensure_ascii=False)`. -/
def readResourceBody (ctx : ServerCtx) (env : HttpEnv) (uri : String) :
    Except String String :=
  if uri = "jenkins://jobs" then
    match (ctx.manager.get_jobs env).1 with
    | .error e => .error e
    | .ok jobs => .ok (jsonDumps false 0 (.arr (jobs.map jobToJson)))
  else if uri = "jenkins://queue" then
    match (ctx.manager.get_queue_info env).1 with
    | .error e => .error e
    | .ok queue_items => .ok (jsonDumps false 0 (.arr queue_items))
  else if uri = "jenkins://failed-jobs" then
    match (ctx.manager.get_jobs env).1 with
    | .error e => .error e
    | .ok jobs =>
        .ok (jsonDumps false 0
              (.arr ((failedJobsResource jobs).map failedJobToJson)))
  else .error ("Recurso no encontrado: " ++ uri)

/-- The `read_resource` handler: run the body; any raised exception is
caught and converted to `json.dumps({"error": str(e)}, indent=2)` (with
the default `ensure_ascii=True`). -/
def read_resource (ctx : ServerCtx) (env : HttpEnv) (uri : String) : String :=
  match readResourceBody ctx env uri with
  | .ok payload => payload
  | .error e => jsonDumps true 0 (.obj [("error", .str e)])

/-! ## Specification-side definitions

These formalise the spec's wording, to be compared with the definitions
transliterated from the source. -/

/-- The spec's failed-job rule: `color ∈ {"red","red_anime"}` OR
(`last_build` present AND `last_build.result == "FAILURE"`). Presence of
`last_build` is "not `None`". -/
def specFailedJob (job : JenkinsJob) : Prop :=
  job.color = "red" ∨ job.color = "red_anime" ∨
    (job.last_build ≠ JVal.null ∧ jGetN job.last_build "result" = JVal.str "FAILURE")

/-! ## Helper lemmas -/

theorem jval_beq_str_iff (v : JVal) (s : String) :
    (v == JVal.str s) = true ↔ v = JVal.str s := by
  show JVal.beq v (.str s) = true ↔ v = JVal.str s
  cases v <;> simp [JVal.beq]

theorem string_beq_iff (a b : String) : (a == b) = true ↔ a = b := beq_iff_eq

/-- The code's `job.last_build and job.last_build.get("result") == "FAILURE"`
(truthiness of the dict) agrees with the spec's "present and result equals
FAILURE" (non-`None`) for every dynamic value of `last_build`: the only
truthy/present disagreements are values on which the `result` lookup
cannot yield `"FAILURE"` anyway. -/
theorem lastBuild_truthy_iff_present (lb : JVal) :
    (pyTruthy lb && (jGetN lb "result" == JVal.str "FAILURE")) = true ↔
      (lb ≠ JVal.null ∧ jGetN lb "result" = JVal.str "FAILURE") := by
  cases lb with
  | null => simp [pyTruthy]
  | bool b => simp [pyTruthy, jGetN, jGetD, jval_beq_str_iff]
  | num n => simp [pyTruthy, jGetN, jGetD, jval_beq_str_iff]
  | str s => simp [pyTruthy, jGetN, jGetD, jval_beq_str_iff]
  | arr xs => simp [pyTruthy, jGetN, jGetD, jval_beq_str_iff]
  | obj kvs =>
      cases kvs with
      | nil => simp [pyTruthy, jGetN, jGetD, pyGetD, pyGet, jval_beq_str_iff]
      | cons kv rest => simp [pyTruthy, jGetN, jGetD, jval_beq_str_iff]

theorem failedCondResource_iff (job : JenkinsJob) :
    failedCondResource job = true ↔ specFailedJob job := by
  unfold failedCondResource specFailedJob
  rw [Bool.or_eq_true, Bool.or_eq_true, lastBuild_truthy_iff_present]
  simp [or_assoc]

/-- Claim C1: a job appears in the failed-jobs output iff its color is
`"red"` or `"red_anime"`, or its `last_build` is present with
`result == "FAILURE"`; and the `jenkins://failed-jobs` resource read and
the `get_failed_jobs` tool select exactly the same jobs. -/
theorem c1_failed_jobs_rule :
    (∀ (jobs : List JenkinsJob) (job : JenkinsJob),
       job ∈ failedJobsResource jobs ↔ job ∈ jobs ∧ specFailedJob job) ∧
    (∀ jobs : List JenkinsJob, failedJobsResource jobs = failedJobsTool jobs) := by
  constructor
  · intro jobs job
    unfold failedJobsResource
    rw [List.mem_filter, failedCondResource_iff]
  · intro jobs
    rfl

/-- A substring of `b` is a substring of `a ++ b`. -/
theorem pySubstr_append_left (x a b : String) (h : pySubstr x b = true) :
    pySubstr x (a ++ b) = true := by
  unfold pySubstr at h ⊢
  rw [decide_eq_true_eq] at h ⊢
  have hb : b.data <:+: (a ++ b).data := by
    rw [String.data_append]
    exact (List.suffix_append a.data b.data).isInfix
  exact h.trans hb

/-- Concrete context and environment for claim C2: an API client whose
transport raises an exception with message `"Timeout"` on every request. -/
def c2Ctx : ServerCtx := ⟨"http://jenkins.example", "user", "token", fun _ => ""⟩

def c2Env : HttpEnv := fun _ => .exn "Timeout"

/-- Claim C2 as stated is false at a concrete input: when the underlying
client raises an error with message `"Timeout"` during a
`jenkins://jobs` resource read, `read_resource` returns the JSON object
`{"error": "Timeout"}` — a payload that carries no VPN-connectivity hint
(it does not even mention the VPN) and is not prefixed with the `"❌"`
failure marker (it contains no `"❌"` at all). -/
theorem c2_counterexample :
    readResourceBody c2Ctx c2Env "jenkins://jobs" = Except.error "Timeout" ∧
    pySubstr "Timeout" "Timeout" = true ∧
    read_resource c2Ctx c2Env "jenkins://jobs" = "\x7b\n  \"error\": \"Timeout\"\n\x7d" ∧
    pySubstr "VPN" (read_resource c2Ctx c2Env "jenkins://jobs") = false ∧
    pySubstr "❌" (read_resource c2Ctx c2Env "jenkins://jobs") = false := by
  refine ⟨rfl, by decide, rfl, by decide, by decide⟩

/-- Claim C2, amended: for every tool name, argument dict and error raised
below it, `call_tool` catches the error and returns a text payload
prefixed with `"❌ Error: "`, appending a VPN-connectivity hint when the
message contains `"Timeout"`; `read_resource` also catches every error but
returns the JSON object payload `{"error": <message>}`, with no failure-
marker prefix and no VPN hint. Neither entry point propagates the
error. -/
theorem c2_error_normalization :
    (∀ (ctx : ServerCtx) (env : HttpEnv) (name : String)
       (arguments : List (String × JVal)) (e : String),
       (callToolBody ctx env name arguments).result = Except.error e →
       ∃ msg : String,
         call_tool ctx env name arguments =
           ⟨[⟨msg⟩], (callToolBody ctx env name arguments).apiCalls,
            (callToolBody ctx env name arguments).httpRequests⟩ ∧
         msg = "❌ Error: " ++ (if pySubstr "Timeout" e then e ++ vpnTip else e) ∧
         "❌ Error: ".data <+: msg.data ∧
         (pySubstr "Timeout" e = true →
           pySubstr "¿Estás conectado a la VPN?" msg = true)) ∧
    (∀ (ctx : ServerCtx) (env : HttpEnv) (uri : String) (e : String),
       readResourceBody ctx env uri = Except.error e →
       read_resource ctx env uri = jsonDumps true 0 (.obj [("error", .str e)])) := by
  constructor
  · intro ctx env name arguments e h
    refine ⟨"❌ Error: " ++ (if pySubstr "Timeout" e then e ++ vpnTip else e),
            ?_, rfl, ?_, ?_⟩
    · simp only [call_tool, h]
    · rw [String.data_append]
      exact List.prefix_append _ _
    · intro ht
      rw [ht]
      have hhint : pySubstr "¿Estás conectado a la VPN?" vpnTip = true := by decide
      exact pySubstr_append_left _ _ _ (pySubstr_append_left _ _ _ hhint)
  · intro ctx env uri e h
    unfold read_resource
    rw [h]

/-- Witness for `c2_error_normalization` at a concrete input: the
`test_connection` tool and the `jenkins://queue` resource with a transport
that raises `"Timeout"`. -/
theorem c2_error_normalization_witness :
    ((callToolBody c2Ctx c2Env "test_connection" []).result =
        Except.error "Timeout" ∧
      ∃ msg : String,
        call_tool c2Ctx c2Env "test_connection" [] =
          ⟨[⟨msg⟩], (callToolBody c2Ctx c2Env "test_connection" []).apiCalls,
           (callToolBody c2Ctx c2Env "test_connection" []).httpRequests⟩ ∧
        msg = "❌ Error: " ++
          (if pySubstr "Timeout" "Timeout" then "Timeout" ++ vpnTip else "Timeout") ∧
        "❌ Error: ".data <+: msg.data ∧
        (pySubstr "Timeout" "Timeout" = true →
          pySubstr "¿Estás conectado a la VPN?" msg = true)) ∧
    (readResourceBody c2Ctx c2Env "jenkins://queue" = Except.error "Timeout" ∧
      read_resource c2Ctx c2Env "jenkins://queue" =
        jsonDumps true 0 (.obj [("error", .str "Timeout")])) :=
  ⟨⟨rfl, c2_error_normalization.1 c2Ctx c2Env "test_connection" [] "Timeout" rfl⟩,
   ⟨rfl, c2_error_normalization.2 c2Ctx c2Env "jenkins://queue" "Timeout" rfl⟩⟩

/-- Claim C3: the tools declaring required arguments are exactly
`get_job_info`, `get_job_builds`, `trigger_build` (requiring `job_name`)
and `get_build_console` (requiring `job_name` and `build_number`); calling
any of them with a required argument absent returns a validation error
text, invokes no API-client method and issues no HTTP request. -/
theorem c3_required_argument_validation :
    list_tools.map (fun t => (t.name, t.required)) =
      [("get_jobs", []), ("get_job_info", ["job_name"]),
       ("get_job_builds", ["job_name"]),
       ("get_build_console", ["job_name", "build_number"]),
       ("trigger_build", ["job_name"]), ("get_failed_jobs", []),
       ("test_connection", [])] ∧
    (∀ (ctx : ServerCtx) (env : HttpEnv) (arguments : List (String × JVal)),
      (pyGet arguments "job_name" = none →
        call_tool ctx env "get_job_info" arguments =
          ⟨[⟨"❌ Error: Se requiere job_name"⟩], [], []⟩ ∧
        call_tool ctx env "get_job_builds" arguments =
          ⟨[⟨"❌ Error: Se requiere job_name"⟩], [], []⟩ ∧
        call_tool ctx env "trigger_build" arguments =
          ⟨[⟨"❌ Error: Se requiere job_name"⟩], [], []⟩ ∧
        call_tool ctx env "get_build_console" arguments =
          ⟨[⟨"❌ Error: Se requieren job_name y build_number"⟩], [], []⟩) ∧
      (pyGet arguments "build_number" = none →
        call_tool ctx env "get_build_console" arguments =
          ⟨[⟨"❌ Error: Se requieren job_name y build_number"⟩], [], []⟩)) := by
  refine ⟨rfl, ?_⟩
  intro ctx env arguments
  constructor
  · intro h
    have hjn : pyGetN arguments "job_name" = JVal.null := by
      unfold pyGetN pyGetD
      rw [h]
      rfl
    refine ⟨?_, ?_, ?_, ?_⟩ <;>
      simp [call_tool, callToolBody, hjn, pyTruthy]
  · intro h
    have hbn : pyGetN arguments "build_number" = JVal.null := by
      unfold pyGetN pyGetD
      rw [h]
      rfl
    simp [call_tool, callToolBody, hbn, pyTruthy]

/-- Concrete context and environment for claim C3. -/
def c3Ctx : ServerCtx := ⟨"http://jenkins.example", "user", "token", fun _ => ""⟩

def c3Env : HttpEnv := fun _ => .exn "boom"

/-- Witness for `c3_required_argument_validation`: an empty argument dict
for the `job_name`-requiring tools, and a dict with only `job_name` for
`get_build_console`. -/
theorem c3_required_argument_validation_witness :
    pyGet ([] : List (String × JVal)) "job_name" = none ∧
    call_tool c3Ctx c3Env "get_job_info" [] =
      ⟨[⟨"❌ Error: Se requiere job_name"⟩], [], []⟩ ∧
    call_tool c3Ctx c3Env "get_job_builds" [] =
      ⟨[⟨"❌ Error: Se requiere job_name"⟩], [], []⟩ ∧
    call_tool c3Ctx c3Env "trigger_build" [] =
      ⟨[⟨"❌ Error: Se requiere job_name"⟩], [], []⟩ ∧
    pyGet [("job_name", JVal.str "demo")] "build_number" = none ∧
    call_tool c3Ctx c3Env "get_build_console" [("job_name", JVal.str "demo")] =
      ⟨[⟨"❌ Error: Se requieren job_name y build_number"⟩], [], []⟩ :=
  ⟨rfl,
   ((c3_required_argument_validation.2 c3Ctx c3Env []).1 rfl).1,
   ((c3_required_argument_validation.2 c3Ctx c3Env []).1 rfl).2.1,
   ((c3_required_argument_validation.2 c3Ctx c3Env []).1 rfl).2.2.1,
   rfl,
   (c3_required_argument_validation.2 c3Ctx c3Env
      [("job_name", JVal.str "demo")]).2 rfl⟩

/-- The characters of `pyJoin sep L` are the `sep.data`-intercalation of
the characters of the pieces. -/
theorem pyJoin_data (sep : String) : ∀ L : List String,
    (pyJoin sep L).data = List.intercalate sep.data (L.map String.data)
  | [] => by simp [pyJoin, List.intercalate]
  | [x] => by simp [pyJoin, List.intercalate]
  | x :: y :: rest => by
      show (x ++ sep ++ pyJoin sep (y :: rest)).data =
        List.intercalate sep.data (x.data :: (y :: rest).map String.data)
      rw [String.data_append, String.data_append, pyJoin_data sep (y :: rest)]
      cases rest with
      | nil =>
          simp [List.intercalate, List.intersperse_cons_cons]
      | cons z rest2 =>
          simp only [List.map_cons, List.intercalate, List.intersperse_cons_cons,
            List.flatten_cons, List.append_assoc]

/-- Strings with equal character lists are equal. -/
theorem string_data_inj {a b : String} (h : a.data = b.data) : a = b := by
  calc a = String.mk a.data := rfl
    _ = String.mk b.data := by rw [h]
    _ = b := rfl

/-- `pySplitNL` is the left inverse of `pyJoin "\n"` on non-empty lists of
newline-free lines. -/
theorem pySplitNL_pyJoin (L : List String) (hnl : ∀ l ∈ L, ('\n') ∉ l.data)
    (hne : L ≠ []) : pySplitNL (pyJoin "\n" L) = L := by
  unfold pySplitNL
  rw [pyJoin_data]
  have hsep : ("\n" : String).data = ['\n'] := rfl
  rw [hsep]
  rw [List.splitOn_intercalate (L.map String.data) '\n'
        (by intro l hl
            obtain ⟨l0, hl0, rfl⟩ := List.mem_map.mp hl
            exact hnl l0 hl0)
        (by simpa using hne)]
  rw [List.map_map]
  simp only [Function.comp_def]
  calc List.map (fun x => String.mk x.data) L = List.map id L := List.map_congr_left
        (fun l _ => rfl)
    _ = L := List.map_id L

/-- Claim C4: `get_build_console` splits the fetched console text on
newline and returns the last `tailLines` lines joined by newline,
preserving order, whenever `tailLines ≥ 1`; in particular, with
`tailLines = 50` on a 200-line log it returns exactly the last 50
lines. -/
theorem c4_console_tail_lines :
    (∀ (linesList : List String) (n : Int), 1 ≤ n →
       (∀ l ∈ linesList, ('\n') ∉ l.data) → linesList ≠ [] →
       consoleTail (pyJoin "\n" linesList) n =
         pyJoin "\n" (linesList.drop (linesList.length - n.toNat))) ∧
    consoleTail (pyJoin "\n" (List.replicate 200 "x")) 50 =
      pyJoin "\n" (List.replicate 50 "x") ∧
    (∀ (m : JenkinsManager) (env : HttpEnv) (job_name build_number lines : JVal)
       (status : Nat) (statusErrMsg : String) (body : JVal) (text : String),
      env ⟨"GET", m.jenkins_url ++ "/job/" ++ pyStr job_name ++ "/" ++
             pyStr build_number ++ "/consoleText", none⟩ =
          .resp status statusErrMsg body text →
      200 ≤ status → status < 300 →
      (m.get_build_console env job_name build_number lines).1 =
        .ok (consoleTail text (jvalAsInt lines))) := by
  have main : ∀ (linesList : List String) (n : Int), 1 ≤ n →
      (∀ l ∈ linesList, ('\n') ∉ l.data) → linesList ≠ [] →
      consoleTail (pyJoin "\n" linesList) n =
        pyJoin "\n" (linesList.drop (linesList.length - n.toNat)) := by
    intro L n hn hnl hne
    simp only [consoleTail]
    rw [pySplitNL_pyJoin L hnl hne]
    simp only [pySliceNeg]
    rw [if_neg (by omega)]
  refine ⟨main, ?_, ?_⟩
  · have h := main (List.replicate 200 "x") 50 (by norm_num)
      (by intro l hl
          rw [List.eq_of_mem_replicate hl]
          decide)
      (by simp)
    rw [h, List.length_replicate,
      show List.drop (200 - Int.toNat 50) (List.replicate 200 "x") =
        List.replicate 50 "x" by decide]
  · intro m env job_name build_number lines status statusErrMsg body text henv h1 h2
    simp only [JenkinsManager.get_build_console]
    rw [henv]
    simp only [raiseForStatus]
    rw [if_pos ⟨h1, h2⟩]

/-- Claim C4 witness: a concrete three-line log with `tailLines = 2`. -/
theorem c4_console_tail_lines_witness :
    ((1 : Int) ≤ 2 ∧ (∀ l ∈ ["a", "b", "c"], ('\n') ∉ l.data) ∧
      (["a", "b", "c"] : List String) ≠ []) ∧
    consoleTail (pyJoin "\n" ["a", "b", "c"]) 2 =
      pyJoin "\n" ((["a", "b", "c"] : List String).drop
        ((["a", "b", "c"] : List String).length - (2 : Int).toNat)) ∧
    ((mkJenkinsManager "http://jenkins.example" "user" "token").get_build_console
        (fun _ => HttpResult.resp 200 "" JVal.null "a\nb\nc")
        (.str "demo") (.num 7) (.num 2)).1 =
      .ok (consoleTail "a\nb\nc" (jvalAsInt (.num 2))) :=
  ⟨⟨by decide, by decide, by decide⟩,
   c4_console_tail_lines.1 ["a", "b", "c"] 2 (by decide) (by decide) (by decide),
   c4_console_tail_lines.2.2 (mkJenkinsManager "http://jenkins.example" "user" "token")
     (fun _ => HttpResult.resp 200 "" JVal.null "a\nb\nc")
     (.str "demo") (.num 7) (.num 2) 200 "" JVal.null "a\nb\nc" rfl
     (by omega) (by omega)⟩

/-- Claim C10: the tail truncation with `tailLines = 0` returns the whole
console text (the slice `lines_list[-0:]` is the whole list), so
`get_build_console` with `lines = 0` returns the entire fetched log. -/
theorem c10_tail_zero_whole_text :
    (∀ s : String, consoleTail s 0 = s) ∧
    (∀ (m : JenkinsManager) (env : HttpEnv) (job_name build_number : JVal)
       (status : Nat) (statusErrMsg : String) (body : JVal) (text : String),
       env ⟨"GET", m.jenkins_url ++ "/job/" ++ pyStr job_name ++ "/" ++
              pyStr build_number ++ "/consoleText", none⟩ =
           .resp status statusErrMsg body text →
       200 ≤ status → status < 300 →
       (m.get_build_console env job_name build_number (.num 0)).1 =
         .ok text) := by
  have main : ∀ s : String, consoleTail s 0 = s := by
    intro s
    simp only [consoleTail, pySliceNeg]
    rw [if_pos (by omega)]
    simp only [Int.neg_zero, Int.toNat_zero, List.drop_zero]
    apply string_data_inj
    rw [pyJoin_data]
    unfold pySplitNL
    rw [List.map_map]
    simp only [Function.comp_def]
    have hmap : List.map (fun x => (String.mk x).data) (s.data.splitOn '\n') =
        List.map id (s.data.splitOn '\n') := List.map_congr_left (fun l _ => rfl)
    rw [hmap, List.map_id]
    exact List.intercalate_splitOn s.data '\n'
  refine ⟨main, ?_⟩
  intro m env job_name build_number status statusErrMsg body text henv h1 h2
  simp only [JenkinsManager.get_build_console]
  rw [henv]
  simp only [raiseForStatus]
  rw [if_pos ⟨h1, h2⟩]
  show Except.ok (consoleTail text (jvalAsInt (.num 0))) = Except.ok text
  rw [show jvalAsInt (.num 0) = 0 from rfl, main text]

/-- Claim C10 witness: a concrete four-line log fetched with
`lines = 0`. -/
theorem c10_tail_zero_whole_text_witness :
    ((fun _ => HttpResult.resp 200 "" JVal.null "a\nb\nc\nd" : HttpEnv)
        ⟨"GET", "http://jenkins.example/job/demo/7/consoleText", none⟩ =
      HttpResult.resp 200 "" JVal.null "a\nb\nc\nd") ∧
    (200 ≤ 200 ∧ 200 < 300) ∧
    ((mkJenkinsManager "http://jenkins.example" "user" "token").get_build_console
        (fun _ => HttpResult.resp 200 "" JVal.null "a\nb\nc\nd")
        (.str "demo") (.num 7) (.num 0)).1 = .ok "a\nb\nc\nd" :=
  ⟨rfl, ⟨by decide, by decide⟩,
   c10_tail_zero_whole_text.2 (mkJenkinsManager "http://jenkins.example" "user" "token")
     (fun _ => HttpResult.resp 200 "" JVal.null "a\nb\nc\nd")
     (.str "demo") (.num 7) 200 "" JVal.null "a\nb\nc\nd" rfl
     (by decide) (by decide)⟩

theorem nat_beq_or_decide (s : Nat) :
    (s == 200 || s == 201) = decide (s = 200 ∨ s = 201) := by
  by_cases h1 : s = 200 <;> by_cases h2 : s = 201 <;> simp [h1, h2]

/-- Claim C5: `trigger_build` with a non-empty parameters dict issues a
form-encoded POST to the `buildWithParameters` endpoint; with an empty or
absent (`None`) parameters dict it issues a POST to the simple `build`
endpoint; in both cases it returns true iff the HTTP status is 200 or
201. -/
theorem c5_trigger_build_endpoints :
    ∀ (m : JenkinsManager) (env : HttpEnv) (job_name : JVal),
      (∀ (l : List (String × JVal)), l ≠ [] →
        ∀ (status : Nat) (statusErrMsg : String) (body : JVal) (text : String),
        env ⟨"POST", m.jenkins_url ++ "/job/" ++ pyStr job_name ++
              "/buildWithParameters", some (JVal.obj l)⟩ =
            .resp status statusErrMsg body text →
        m.trigger_build env job_name (JVal.obj l) =
          (.ok (decide (status = 200 ∨ status = 201)),
           [⟨"POST", m.jenkins_url ++ "/job/" ++ pyStr job_name ++
              "/buildWithParameters", some (JVal.obj l)⟩])) ∧
      (∀ (parameters : JVal),
        parameters = JVal.obj [] ∨ parameters = JVal.null →
        ∀ (status : Nat) (statusErrMsg : String) (body : JVal) (text : String),
        env ⟨"POST", m.jenkins_url ++ "/job/" ++ pyStr job_name ++ "/build", none⟩ =
            .resp status statusErrMsg body text →
        m.trigger_build env job_name parameters =
          (.ok (decide (status = 200 ∨ status = 201)),
           [⟨"POST", m.jenkins_url ++ "/job/" ++ pyStr job_name ++ "/build",
             none⟩])) := by
  intro m env job_name
  constructor
  · intro l hl status statusErrMsg body text henv
    have htru : pyTruthy (JVal.obj l) = true := by
      simp [pyTruthy, List.isEmpty_iff, hl]
    simp only [JenkinsManager.trigger_build, htru, if_true]
    rw [henv]
    dsimp only
    rw [nat_beq_or_decide]
  · intro parameters hp status statusErrMsg body text henv
    have htru : pyTruthy parameters = false := by
      rcases hp with rfl | rfl <;> simp [pyTruthy]
    simp only [JenkinsManager.trigger_build, htru, Bool.false_eq_true, if_false]
    rw [henv]
    dsimp only
    rw [nat_beq_or_decide]

/-- Concrete manager and environment for claim C5's witness: the server
answers every POST with status 201. -/
def c5M : JenkinsManager := mkJenkinsManager "http://jenkins.example" "user" "token"

def c5Env : HttpEnv := fun _ => .resp 201 "" .null ""

/-- Witness for `c5_trigger_build_endpoints`: one parameterized trigger
and one plain trigger against a 201-answering server. -/
theorem c5_trigger_build_endpoints_witness :
    ([("FOO", JVal.str "1")] : List (String × JVal)) ≠ [] ∧
    c5M.trigger_build c5Env (.str "demo") (JVal.obj [("FOO", JVal.str "1")]) =
      (.ok (decide ((201 : Nat) = 200 ∨ (201 : Nat) = 201)),
       [⟨"POST", c5M.jenkins_url ++ "/job/" ++ pyStr (.str "demo") ++
          "/buildWithParameters", some (JVal.obj [("FOO", JVal.str "1")])⟩]) ∧
    c5M.trigger_build c5Env (.str "demo") JVal.null =
      (.ok (decide ((201 : Nat) = 200 ∨ (201 : Nat) = 201)),
       [⟨"POST", c5M.jenkins_url ++ "/job/" ++ pyStr (.str "demo") ++ "/build",
         none⟩]) :=
  ⟨List.cons_ne_nil _ _,
   (c5_trigger_build_endpoints c5M c5Env (.str "demo")).1
     [("FOO", JVal.str "1")] (List.cons_ne_nil _ _) 201 "" .null "" rfl,
   (c5_trigger_build_endpoints c5M c5Env (.str "demo")).2
     JVal.null (Or.inr rfl) 201 "" .null "" rfl⟩

theorem pySubstr_empty_needle (s : String) : pySubstr "" s = true := by
  simp [pySubstr]

/-- Claim C6: the `get_jobs` tool keeps exactly the jobs whose name
contains the filter argument as a case-insensitive substring, and an
empty or absent filter applies no filtering. -/
theorem c6_get_jobs_filter :
    (∀ (arguments : List (String × JVal)) (f : String) (jobs : List JenkinsJob),
      pyGet arguments "filter" = some (.str f) →
      getJobsSelection arguments jobs =
        jobs.filter (fun job => pySubstr (pyLower f) (pyLower job.name))) ∧
    (∀ (arguments : List (String × JVal)) (jobs : List JenkinsJob),
      pyGet arguments "filter" = none ∨ pyGet arguments "filter" = some (.str "") →
      getJobsSelection arguments jobs = jobs) := by
  constructor
  · intro arguments f jobs h
    simp only [getJobsSelection, pyGetD, h, Option.getD_some, jvalAsStr]
    by_cases hf : pyLower f = ""
    · rw [if_neg (by simp [hf])]
      rw [hf]
      have hall : (fun job : JenkinsJob => pySubstr "" (pyLower job.name)) =
          (fun _ : JenkinsJob => true) := by
        funext job
        exact pySubstr_empty_needle _
      rw [hall, List.filter_true]
    · rw [if_pos (by simpa using hf)]
  · intro arguments jobs h
    have hval : jvalAsStr (pyGetD arguments "filter" (.str "")) = "" := by
      rcases h with h | h <;> simp [pyGetD, h, jvalAsStr]
    simp only [getJobsSelection, hval]
    rw [if_neg (by simp [show pyLower "" = "" from rfl])]

/-- Witness for `c6_get_jobs_filter`: the filter `"Build"` against jobs
named `"nightly-build-1"` and `"deploy"`. -/
theorem c6_get_jobs_filter_witness :
    pyGet [("filter", JVal.str "Build")] "filter" = some (.str "Build") ∧
    getJobsSelection [("filter", JVal.str "Build")]
        [⟨"nightly-build-1", "", "blue", true, .null⟩,
         ⟨"deploy", "", "blue", true, .null⟩] =
      ([⟨"nightly-build-1", "", "blue", true, .null⟩,
        ⟨"deploy", "", "blue", true, .null⟩] :
          List JenkinsJob).filter
        (fun job => pySubstr (pyLower "Build") (pyLower job.name)) ∧
    pyGet ([] : List (String × JVal)) "filter" = none ∧
    getJobsSelection []
        [⟨"nightly-build-1", "", "blue", true, .null⟩,
         ⟨"deploy", "", "blue", true, .null⟩] =
      [⟨"nightly-build-1", "", "blue", true, .null⟩,
       ⟨"deploy", "", "blue", true, .null⟩] :=
  ⟨rfl,
   c6_get_jobs_filter.1 [("filter", JVal.str "Build")] "Build" _ rfl,
   rfl,
   c6_get_jobs_filter.2 [] _ (Or.inl rfl)⟩

/-- Claim C7: `test_connection` fails with the VPN-hinting connectivity
message on a connect-phase timeout, the authentication message on HTTP
401, the permission message on HTTP 403, and an HTTP-error message
carrying the status code on any other non-2xx status; on a 2xx status it
returns the parsed server info. -/
theorem c7_test_connection_errors :
    ∀ (m : JenkinsManager) (env : HttpEnv),
      (∀ msg : String,
        env ⟨"GET", m.jenkins_url ++ "/api/json", none⟩ = .connectTimeout msg →
        (m.test_connection env).1 =
          .error "Timeout de conexión - ¿Estás conectado a la VPN?" ∧
        pySubstr "VPN" "Timeout de conexión - ¿Estás conectado a la VPN?" = true) ∧
      (∀ (statusErrMsg : String) (body : JVal) (text : String),
        env ⟨"GET", m.jenkins_url ++ "/api/json", none⟩ =
            .resp 401 statusErrMsg body text →
        (m.test_connection env).1 =
          .error "Error de autenticación - Verifica usuario y token") ∧
      (∀ (statusErrMsg : String) (body : JVal) (text : String),
        env ⟨"GET", m.jenkins_url ++ "/api/json", none⟩ =
            .resp 403 statusErrMsg body text →
        (m.test_connection env).1 =
          .error "Sin permisos - Verifica los permisos del usuario") ∧
      (∀ (status : Nat) (statusErrMsg : String) (body : JVal) (text : String),
        env ⟨"GET", m.jenkins_url ++ "/api/json", none⟩ =
            .resp status statusErrMsg body text →
        ¬(200 ≤ status ∧ status < 300) → status ≠ 401 → status ≠ 403 →
        (m.test_connection env).1 = .error ("Error HTTP " ++ toString status)) ∧
      (∀ (status : Nat) (statusErrMsg : String) (body : JVal) (text : String),
        env ⟨"GET", m.jenkins_url ++ "/api/json", none⟩ =
            .resp status statusErrMsg body text →
        200 ≤ status → status < 300 →
        (m.test_connection env).1 = .ok body) := by
  intro m env
  refine ⟨?_, ?_, ?_, ?_, ?_⟩
  · intro msg henv
    refine ⟨?_, by decide⟩
    simp only [JenkinsManager.test_connection]
    rw [henv]
  · intro statusErrMsg body text henv
    simp only [JenkinsManager.test_connection]
    rw [henv]
    dsimp only
    rw [if_neg (by omega), if_pos rfl]
  · intro statusErrMsg body text henv
    simp only [JenkinsManager.test_connection]
    rw [henv]
    dsimp only
    rw [if_neg (by omega), if_neg (by omega), if_pos rfl]
  · intro status statusErrMsg body text henv h2xx h401 h403
    simp only [JenkinsManager.test_connection]
    rw [henv]
    dsimp only
    rw [if_neg h2xx, if_neg h401, if_neg h403]
  · intro status statusErrMsg body text henv h1 h2
    simp only [JenkinsManager.test_connection]
    rw [henv]
    dsimp only
    rw [if_pos ⟨h1, h2⟩]

/-- Concrete manager for claim C7's witness. -/
def c7M : JenkinsManager := mkJenkinsManager "http://jenkins.example" "user" "token"

/-- Witness for `c7_test_connection_errors`: one environment per outcome
(connect timeout, 401, 403, 500 and 200-with-body). -/
theorem c7_test_connection_errors_witness :
    ((c7M.test_connection (fun _ => .connectTimeout "t/o")).1 =
        .error "Timeout de conexión - ¿Estás conectado a la VPN?" ∧
      pySubstr "VPN" "Timeout de conexión - ¿Estás conectado a la VPN?" = true) ∧
    (c7M.test_connection (fun _ => .resp 401 "unauthorized" .null "")).1 =
      .error "Error de autenticación - Verifica usuario y token" ∧
    (c7M.test_connection (fun _ => .resp 403 "forbidden" .null "")).1 =
      .error "Sin permisos - Verifica los permisos del usuario" ∧
    (c7M.test_connection (fun _ => .resp 500 "server error" .null "")).1 =
      .error ("Error HTTP " ++ toString (500 : Nat)) ∧
    (c7M.test_connection
        (fun _ => .resp 200 "" (.obj [("version", .str "2.414")]) "")).1 =
      .ok (.obj [("version", .str "2.414")]) :=
  ⟨(c7_test_connection_errors c7M (fun _ => .connectTimeout "t/o")).1 "t/o" rfl,
   (c7_test_connection_errors c7M (fun _ => .resp 401 "unauthorized" .null "")).2.1
     "unauthorized" .null "" rfl,
   (c7_test_connection_errors c7M
      (fun _ => .resp 403 "forbidden" .null "")).2.2.1 "forbidden" .null "" rfl,
   (c7_test_connection_errors c7M
      (fun _ => .resp 500 "server error" .null "")).2.2.2.1 500 "server error"
     .null "" rfl (by omega) (by omega) (by omega),
   (c7_test_connection_errors c7M
      (fun _ => .resp 200 "" (.obj [("version", .str "2.414")]) "")).2.2.2.2 200
     "" (.obj [("version", .str "2.414")]) "" rfl (by omega) (by omega)⟩

/-- Claim C8: `get_job_builds` produces build records where a missing
`number`, `duration` or `timestamp` defaults to 0, a missing `building`
defaults to false, and a missing `result` defaults to the string
`"UNKNOWN"`; every record comes from `parseBuild` applied to one entry of
the response's `builds` array. -/
theorem c8_build_field_defaults :
    (∀ build_data : List (String × JVal),
      (pyGet build_data "number" = none → (parseBuild build_data).number = 0) ∧
      (pyGet build_data "duration" = none → (parseBuild build_data).duration = 0) ∧
      (pyGet build_data "timestamp" = none →
        (parseBuild build_data).timestamp = 0) ∧
      (pyGet build_data "building" = none →
        (parseBuild build_data).building = false) ∧
      (pyGet build_data "result" = none →
        (parseBuild build_data).result = JVal.str "UNKNOWN")) ∧
    (∀ (m : JenkinsManager) (env : HttpEnv) (job_name limit : JVal)
       (status : Nat) (statusErrMsg : String) (body : JVal) (text : String),
      env ⟨"GET",
           m.jenkins_url ++ "/job/" ++ pyStr job_name ++
             "/api/json?tree=builds[number,url,result,building,duration,timestamp]\x7b0," ++
             pyStr limit ++ "\x7d",
           none⟩ = .resp status statusErrMsg body text →
      200 ≤ status → status < 300 →
      (m.get_job_builds env job_name limit).1 =
        .ok ((jvalAsArr (jGetD body "builds" (.arr []))).map
              (fun build_data => parseBuild (jvalAsObj build_data)))) := by
  constructor
  · intro build_data
    refine ⟨?_, ?_, ?_, ?_, ?_⟩ <;>
      · intro h
        simp [parseBuild, pyGetD, h, jvalAsInt, jvalAsBool, pyTruthy]
  · intro m env job_name limit status statusErrMsg body text henv h1 h2
    simp only [JenkinsManager.get_job_builds]
    rw [henv]
    simp only [raiseForStatus]
    rw [if_pos ⟨h1, h2⟩]

/-- Witness for `c8_build_field_defaults`: the empty build dict defaults
every field, and a one-build response parses through `parseBuild`. -/
theorem c8_build_field_defaults_witness :
    (pyGet ([] : List (String × JVal)) "number" = none ∧
      (parseBuild []).number = 0 ∧ (parseBuild []).duration = 0 ∧
      (parseBuild []).timestamp = 0 ∧ (parseBuild []).building = false ∧
      (parseBuild []).result = JVal.str "UNKNOWN") ∧
    ((mkJenkinsManager "http://jenkins.example" "user" "token").get_job_builds
        (fun _ => .resp 200 "" (.obj [("builds", .arr [.obj []])]) "")
        (.str "demo") (.num 10)).1 =
      .ok ((jvalAsArr (jGetD (.obj [("builds", .arr [.obj []])]) "builds" (.arr []))).map
            (fun build_data => parseBuild (jvalAsObj build_data))) :=
  ⟨⟨rfl,
    (c8_build_field_defaults.1 []).1 rfl,
    (c8_build_field_defaults.1 []).2.1 rfl,
    (c8_build_field_defaults.1 []).2.2.1 rfl,
    (c8_build_field_defaults.1 []).2.2.2.1 rfl,
    (c8_build_field_defaults.1 []).2.2.2.2 rfl⟩,
   c8_build_field_defaults.2 (mkJenkinsManager "http://jenkins.example" "user" "token")
     (fun _ => .resp 200 "" (.obj [("builds", .arr [.obj []])]) "")
     (.str "demo") (.num 10) 200 "" (.obj [("builds", .arr [.obj []])]) "" rfl
     (by omega) (by omega)⟩

/-- Claim C9: for `get_build_console`, a `build_number` argument equal to
0 is treated like an absent `build_number` — the truthiness test
`all([job_name, build_number])` fails on 0 — so the dispatcher returns the
missing-argument validation text, invokes no API-client method and issues
no HTTP request. -/
theorem c9_build_number_zero_validation :
    ∀ (ctx : ServerCtx) (env : HttpEnv) (arguments : List (String × JVal)),
      pyGet arguments "build_number" = some (JVal.num 0) →
      call_tool ctx env "get_build_console" arguments =
        ⟨[⟨"❌ Error: Se requieren job_name y build_number"⟩], [], []⟩ := by
  intro ctx env arguments h
  have hbn : pyGetN arguments "build_number" = JVal.num 0 := by
    unfold pyGetN pyGetD
    rw [h]
    rfl
  simp [call_tool, callToolBody, hbn, pyTruthy]

/-- Concrete context and environment for claim C9's witness. -/
def c9Ctx : ServerCtx := ⟨"http://jenkins.example", "user", "token", fun _ => ""⟩

def c9Env : HttpEnv := fun _ => .exn "boom"

/-- Witness for `c9_build_number_zero_validation`: `job_name` present and
truthy, `build_number` present but 0. -/
theorem c9_build_number_zero_validation_witness :
    pyGet [("job_name", JVal.str "demo"), ("build_number", JVal.num 0)]
        "build_number" = some (JVal.num 0) ∧
    call_tool c9Ctx c9Env "get_build_console"
        [("job_name", JVal.str "demo"), ("build_number", JVal.num 0)] =
      ⟨[⟨"❌ Error: Se requieren job_name y build_number"⟩], [], []⟩ :=
  ⟨rfl,
   c9_build_number_zero_validation c9Ctx c9Env
     [("job_name", JVal.str "demo"), ("build_number", JVal.num 0)] rfl⟩

end JenkinsMCP
